import Mathlib

/-!
# Verification of the sidelines-homework helpers and test scenarios

Shallow embedding of `src/config/helpers.js` and the two test files.

JavaScript values that flow through `validateApiData` are modelled by
`JsVal` (only the tags that the code inspects matter: nullish, number,
string, boolean).  `v?.trim()` on a non-nullish non-string value raises a
`TypeError`, so the record validator is embedded as an `Except`-valued
function.  The browser page used by `validateResources` is modelled as a
stateful navigation capability (`Page`): each `goto` either raises a
fault, yields no response object, or yields a response with an integer
status code, and threads a page state (the real page is a single shared
tab whose state changes on every navigation).
-/

/-- A JavaScript value, restricted to the tags `validateApiData` inspects. -/
inductive JsVal where
  | null
  | undefined
  | num (n : Int)
  | str (s : String)
  | boolean (b : Bool)
deriving DecidableEq

/-- The fields destructured from an API record by `validateApiData`
(`const { userId, title, body, name: userName } = item`); a field absent
from the JSON object destructures to `undefined`. -/
structure ApiRecord where
  userId : JsVal := .undefined
  title : JsVal := .undefined
  body : JsVal := .undefined
  name : JsVal := .undefined
deriving DecidableEq

/-- The only runtime fault the embedded validator can raise:
calling `.trim()` (via `?.`) on a non-nullish value that is not a string. -/
inductive JsErr where
  | typeError
deriving DecidableEq

/-- An entry pushed onto `invalidEntries`: the record index, the record
fields copied into the object literal (in literal order, keyed by the
object-literal key), and the `reason` array. -/
structure InvalidEntry where
  index : Nat
  fields : List (String × JsVal)
  reason : List String
deriving DecidableEq

instance {ε α : Type} [DecidableEq ε] [DecidableEq α] : DecidableEq (Except ε α) := fun a b =>
  match a, b with
  | .ok x, .ok y => if h : x = y then .isTrue (by rw [h]) else .isFalse (by simp [h])
  | .error x, .error y => if h : x = y then .isTrue (by rw [h]) else .isFalse (by simp [h])
  | .ok _, .error _ => .isFalse (by simp)
  | .error _, .ok _ => .isFalse (by simp)

/-- `typeof v === "number"`. -/
def isNumber : JsVal → Bool
  | .num _ => true
  | _ => false

/-- A value on which `v?.trim()` cannot raise: nullish or a string. -/
def isStringOrNullish : JsVal → Bool
  | .null => true
  | .undefined => true
  | .str _ => true
  | _ => false

/-- `String.prototype.trim`: removal of whitespace from both ends
(JavaScript's whitespace class is modelled by `Char.isWhitespace`, which
agrees with it on all characters the repository's data contains). -/
def jsTrim (s : String) : String :=
  String.mk (((s.data.dropWhile Char.isWhitespace).reverse.dropWhile Char.isWhitespace).reverse)

/-- The truth value of `!v?.trim()`: optional chaining makes the whole
expression `undefined` (falsy, so `!` gives `true`) when `v` is nullish;
on a string it is `!s.trim()`, true exactly when the trimmed string is
empty; on any other value `v.trim` is not a function and a `TypeError`
is raised. -/
def trimFalsy : JsVal → Except JsErr Bool
  | .null => .ok true
  | .undefined => .ok true
  | .str s => .ok (jsTrim s == "")
  | _ => .error .typeError

/-- The `"Posts"` branch of `validateApiData` for one record.  The source
condition `typeof userId !== "number" || !title?.trim() || !body?.trim()`
short-circuits, but whenever it is true the pushed object's `reason`
array re-evaluates all three tests, so on every control path both
`title?.trim()` and `body?.trim()` are evaluated (and both trims are
deterministic), which this embedding makes explicit. -/
def checkPosts (i : Nat) (item : ApiRecord) : Except JsErr (Option InvalidEntry) :=
  let uBad := !isNumber item.userId
  match trimFalsy item.title with
  | .error e => .error e
  | .ok tBlank =>
    match trimFalsy item.body with
    | .error e => .error e
    | .ok bBlank =>
      if uBad || tBlank || bBlank then
        .ok (some
          { index := i
            fields := [("userId", item.userId), ("title", item.title), ("body", item.body)]
            reason :=
              (if uBad then ["userId is not a number"] else []) ++
              (if tBlank then ["title is empty"] else []) ++
              (if bBlank then ["body is empty"] else []) })
      else
        .ok none

/-- The `"Users"` branch of `validateApiData` for one record: push
`{ index, userName, reason: ["name is empty"] }` when `!userName?.trim()`.
Note the object-literal shorthand stores the record's `name` value under
the key `userName`. -/
def checkUsers (i : Nat) (item : ApiRecord) : Except JsErr (Option InvalidEntry) :=
  match trimFalsy item.name with
  | .error e => .error e
  | .ok nBlank =>
    if nBlank then
      .ok (some { index := i, fields := [("userName", item.name)], reason := ["name is empty"] })
    else
      .ok none

/-- One `forEach` iteration of `validateApiData`: the source tests
`name === "Posts"` and `name === "Users"` with two separate `if`s, but a
string equals at most one of the two labels, so the sequential `if`s are
an exclusive dispatch; any other label runs no check at all. -/
def checkItem (label : String) (i : Nat) (item : ApiRecord) : Except JsErr (Option InvalidEntry) :=
  if label = "Posts" then checkPosts i item
  else if label = "Users" then checkUsers i item
  else .ok none

/-- The `data.forEach((item, index) => ...)` loop of `validateApiData`,
started at index `i`; a `TypeError` in any iteration aborts the whole
call, an iteration that pushes nothing leaves the accumulator unchanged. -/
def validateApiDataAux (label : String) (i : Nat) : List ApiRecord → Except JsErr (List InvalidEntry)
  | [] => .ok []
  | item :: rest =>
    match checkItem label i item with
    | .error e => .error e
    | .ok o =>
      match validateApiDataAux label (i + 1) rest with
      | .error e => .error e
      | .ok es =>
        .ok (match o with | some x => x :: es | none => es)

/-- `validateApiData(data, name)` from `src/config/helpers.js` lines 97-130. -/
def validateApiData (data : List ApiRecord) (label : String) : Except JsErr (List InvalidEntry) :=
  validateApiDataAux label 0 data

/-- Outcome of one `page.goto(resource)`: the navigation throws, returns a
nullish value instead of a response object, or returns a response whose
`status()` is an integer code. -/
inductive NavResult where
  | fault
  | noResponse
  | response (status : Nat)
deriving DecidableEq

/-- The `status` field of a recorded broken-resource entry: a numeric HTTP
status code, or one of the two sentinel strings `"No Response"` / `"Error"`. -/
inductive ResStatus where
  | code (n : Nat)
  | noResponse
  | error
deriving DecidableEq

/-- `{ resource, status }` as pushed onto `brokenResources`. -/
structure ResourceCheckResult where
  resource : String
  status : ResStatus
deriving DecidableEq

/-- The navigation capability handed to the resource validators: a single
shared tab, so `goto` threads a page state `σ`. -/
structure Page (σ : Type) where
  goto : σ → String → NavResult × σ

/-- `validateResources(page, resources)` from `src/config/helpers.js`
lines 46-62: per URL, a thrown navigation records `"Error"`;
a nullish response records `"No Response"` (`!response` is true);
a response with `status() !== 200` records the numeric code;
a status-200 response records nothing. -/
def validateResources {σ : Type} (page : Page σ) (s : σ) : List String → List ResourceCheckResult
  | [] => []
  | resource :: rest =>
    match page.goto s resource with
    | (.fault, s1) => ⟨resource, .error⟩ :: validateResources page s1 rest
    | (.noResponse, s1) => ⟨resource, .noResponse⟩ :: validateResources page s1 rest
    | (.response c, s1) =>
      if c ≠ 200 then ⟨resource, .code c⟩ :: validateResources page s1 rest
      else validateResources page s1 rest

/-- The classification of a single URL's navigation outcome (the body of
one loop iteration of `validateResources`, before the 200 filter). -/
def checkStep {σ : Type} (page : Page σ) (s : σ) (resource : String) : ResourceCheckResult × σ :=
  match page.goto s resource with
  | (.fault, s1) => (⟨resource, .error⟩, s1)
  | (.noResponse, s1) => (⟨resource, .noResponse⟩, s1)
  | (.response c, s1) => (⟨resource, .code c⟩, s1)

/-- The per-URL check results of a run, one per input URL in input order
(the spec's ResourceCheckResult sequence, of which BrokenResourceList is
the non-200 subsequence). -/
def resourceCheckResults {σ : Type} (page : Page σ) (s : σ) : List String → List ResourceCheckResult
  | [] => []
  | r :: rest =>
    (checkStep page s r).1 :: resourceCheckResults page (checkStep page s r).2 rest

/-- The inline per-resource loop of the duplicated Lighthouse test file
(`website-analysis-and-resource-validation.spec.js`, inline copy): it has
no `!response` guard, so on a nullish response `response.status()` raises
a `TypeError` which the surrounding per-resource `catch` turns into an
`"Error"` entry (the `response ? ... : "No Response"` ternary inside the
push is unreachable for a nullish response). -/
def inlineValidateResources {σ : Type} (page : Page σ) (s : σ) : List String → List ResourceCheckResult
  | [] => []
  | resource :: rest =>
    match page.goto s resource with
    | (.fault, s1) => ⟨resource, .error⟩ :: inlineValidateResources page s1 rest
    | (.noResponse, s1) => ⟨resource, .error⟩ :: inlineValidateResources page s1 rest
    | (.response c, s1) =>
      if c ≠ 200 then ⟨resource, .code c⟩ :: inlineValidateResources page s1 rest
      else inlineValidateResources page s1 rest

/-- `closeBrowserContextSafely(browserContext)` from
`src/config/helpers.js` lines 18-24: it awaits `close()` and swallows any
fault (logging it), so it never raises. -/
def closeBrowserContextSafely {ε : Type} (closeResult : Except ε Unit) : Except ε Unit :=
  match closeResult with
  | .ok _ => .ok ()
  | .error _ => .ok ()

/-- Result of one run of the audit scenario: the scenario's own outcome,
and whether context closure was invoked before the scenario ended. -/
structure AuditOutcome (ε : Type) where
  result : Except ε Unit
  contextClosed : Bool
deriving DecidableEq

/-- The audit scenario of `website-analysis-and-resource-validation.spec.js`
(`should analyze performance, SEO, accessibility, and best practices`),
after the persistent browser context has been launched:
`ensureDirectoryExists` runs before the `try` block, so a fault there
propagates without reaching the `finally`; faults from the oracle or the
report/extract steps inside the `try` are attached and rethrown, and the
`finally` runs `closeBrowserContextSafely` (which never raises, so the
rethrown fault is preserved).  `contextClosed` records whether the
`finally` closure ran. -/
def auditScenario {ε α : Type} (ensureDir : Except ε Unit) (oracle : Except ε α)
    (save : α → Except ε Unit) (closeResult : Except ε Unit) : AuditOutcome ε :=
  match ensureDir with
  | .error e => ⟨.error e, false⟩
  | .ok _ =>
    match oracle with
    | .error e =>
      ⟨(closeBrowserContextSafely closeResult).bind fun _ => .error e, true⟩
    | .ok lhr =>
      match save lhr with
      | .error e =>
        ⟨(closeBrowserContextSafely closeResult).bind fun _ => .error e, true⟩
      | .ok _ =>
        ⟨(closeBrowserContextSafely closeResult).bind fun _ => .ok (), true⟩

/-- A concrete deterministic page for witnesses: `"ok"` answers 200,
`"missing"` answers 404, `"null"` yields no response object, anything
else throws. -/
def samplePage : Page Unit where
  goto := fun s r =>
    if r = "ok" then (.response 200, s)
    else if r = "missing" then (.response 404, s)
    else if r = "null" then (.noResponse, s)
    else (.fault, s)

example :
    validateResources samplePage () ["ok", "missing", "null", "bad"] =
      [⟨"missing", .code 404⟩, ⟨"null", .noResponse⟩, ⟨"bad", .error⟩] := by decide

example :
    inlineValidateResources samplePage () ["ok", "missing", "null", "bad"] =
      [⟨"missing", .code 404⟩, ⟨"null", .error⟩, ⟨"bad", .error⟩] := by decide

example :
    validateApiData [{ userId := .str "x", title := .str "", body := .str "ok" }] "Posts" =
      .ok [{ index := 0
             fields := [("userId", .str "x"), ("title", .str ""), ("body", .str "ok")]
             reason := ["userId is not a number", "title is empty"] }] := by decide

example :
    validateApiData [{ userId := .num 1, title := .num 5, body := .str "ok" }] "Posts" =
      .error .typeError := by decide

/-! ## Lemmas about the resource validators -/

theorem closeBrowserContextSafely_ok {ε : Type} (c : Except ε Unit) :
    closeBrowserContextSafely c = .ok () := by
  cases c <;> rfl

theorem validateResources_eq_filter {σ : Type} (page : Page σ) (s : σ) (resources : List String) :
    validateResources page s resources =
      (resourceCheckResults page s resources).filter (fun e => !(e.status == .code 200)) := by
  induction resources generalizing s with
  | nil => rfl
  | cons r rest ih =>
    rcases hg : page.goto s r with ⟨nr, s1⟩
    cases nr with
    | fault =>
      simp [validateResources, resourceCheckResults, checkStep, hg, List.filter_cons, ih]
    | noResponse =>
      simp [validateResources, resourceCheckResults, checkStep, hg, List.filter_cons, ih]
    | response c =>
      by_cases hc : c = 200
      · subst hc
        simp [validateResources, resourceCheckResults, checkStep, hg, List.filter_cons, ih]
      · simp [validateResources, resourceCheckResults, checkStep, hg, List.filter_cons,
          beq_iff_eq, hc, ih]

/-- C1: the list returned by `validateResources` is exactly the
subsequence of per-URL check results whose status is not `200`, and for
every per-URL check result exactly one of {status is 200, membership in
the broken list} holds. -/
theorem validateResources_broken_partition {σ : Type} (page : Page σ) (s : σ)
    (resources : List String) :
    validateResources page s resources =
      (resourceCheckResults page s resources).filter (fun e => !(e.status == .code 200)) ∧
    ∀ e ∈ resourceCheckResults page s resources,
      Xor' (e.status = .code 200) (e ∈ validateResources page s resources) := by
  refine ⟨validateResources_eq_filter page s resources, ?_⟩
  intro e he
  rw [validateResources_eq_filter page s resources]
  by_cases h : e.status = .code 200
  · left
    refine ⟨h, fun hmem => ?_⟩
    rcases List.mem_filter.1 hmem with ⟨-, hp⟩
    simp [h] at hp
  · right
    exact ⟨List.mem_filter.2 ⟨he, by simp [h]⟩, h⟩

theorem validateResources_broken_partition_witness :
    Xor' ((⟨"missing", .code 404⟩ : ResourceCheckResult).status = .code 200)
      ((⟨"missing", .code 404⟩ : ResourceCheckResult) ∈
        validateResources samplePage () ["ok", "missing"]) :=
  (validateResources_broken_partition samplePage () ["ok", "missing"]).2
    ⟨"missing", .code 404⟩ (by decide)

/-- C2: per processed URL, a thrown navigation records the sentinel
`"Error"`, a nullish response records the sentinel `"No Response"`, and a
response with a non-200 code records that numeric code. -/
theorem validateResources_status_classification {σ : Type} (page : Page σ) (s s1 : σ)
    (r : String) (rest : List String) :
    (page.goto s r = (.fault, s1) →
      validateResources page s (r :: rest) =
        ⟨r, .error⟩ :: validateResources page s1 rest) ∧
    (page.goto s r = (.noResponse, s1) →
      validateResources page s (r :: rest) =
        ⟨r, .noResponse⟩ :: validateResources page s1 rest) ∧
    (∀ c, page.goto s r = (.response c, s1) → c ≠ 200 →
      validateResources page s (r :: rest) =
        ⟨r, .code c⟩ :: validateResources page s1 rest) := by
  refine ⟨fun h => ?_, fun h => ?_, fun c h hc => ?_⟩
  · simp [validateResources, h]
  · simp [validateResources, h]
  · simp [validateResources, h, hc]

theorem validateResources_status_classification_witness :
    validateResources samplePage () ["bad"] = [⟨"bad", .error⟩] ∧
    validateResources samplePage () ["null"] = [⟨"null", .noResponse⟩] ∧
    validateResources samplePage () ["missing"] = [⟨"missing", .code 404⟩] :=
  ⟨(validateResources_status_classification samplePage () () "bad" []).1 (by decide),
   (validateResources_status_classification samplePage () () "null" []).2.1 (by decide),
   (validateResources_status_classification samplePage () () "missing" []).2.2 404
     (by decide) (by decide)⟩

/-- C9 counterexample: on a URL whose navigation yields no response
object, the helper records the sentinel `"No Response"` while the inline
copy records `"Error"` (because `response.status()` throws on a nullish
response before the `"No Response"` ternary can be reached), so the two
loops do not produce the same list. -/
theorem inline_vs_helper_counterexample :
    validateResources samplePage () ["null"] = [⟨"null", .noResponse⟩] ∧
    inlineValidateResources samplePage () ["null"] = [⟨"null", .error⟩] ∧
    inlineValidateResources samplePage () ["null"] ≠ validateResources samplePage () ["null"] := by
  decide

/-- C9 amended: whenever no navigation in the run yields a nullish
response, the inline per-resource loop of the duplicated test file
produces exactly the same broken-resource list as `validateResources`;
on a nullish response the helper records `"No Response"` while the
inline copy records `"Error"`. -/
theorem inline_helper_agree_without_null_response {σ : Type} (page : Page σ) (s : σ)
    (resources : List String)
    (h : ∀ e ∈ resourceCheckResults page s resources, e.status ≠ .noResponse) :
    inlineValidateResources page s resources = validateResources page s resources := by
  induction resources generalizing s with
  | nil => rfl
  | cons r rest ih =>
    rcases hg : page.goto s r with ⟨nr, s1⟩
    have hcs1 := h (checkStep page s r).1 (by simp [resourceCheckResults])
    have htail : ∀ e ∈ resourceCheckResults page (checkStep page s r).2 rest,
        e.status ≠ .noResponse := by
      intro e he
      exact h e (by simp [resourceCheckResults, he])
    cases nr with
    | fault =>
      have hs2 : (checkStep page s r).2 = s1 := by simp [checkStep, hg]
      rw [hs2] at htail
      simp [validateResources, inlineValidateResources, hg, ih s1 htail]
    | noResponse =>
      have : (checkStep page s r).1.status = .noResponse := by simp [checkStep, hg]
      exact absurd this hcs1
    | response c =>
      have hs2 : (checkStep page s r).2 = s1 := by simp [checkStep, hg]
      rw [hs2] at htail
      by_cases hc : c = 200
      · subst hc
        simp [validateResources, inlineValidateResources, hg, ih s1 htail]
      · simp [validateResources, inlineValidateResources, hg, hc, ih s1 htail]

theorem inline_helper_agree_witness :
    inlineValidateResources samplePage () ["ok", "missing", "bad"] =
      validateResources samplePage () ["ok", "missing", "bad"] :=
  inline_helper_agree_without_null_response samplePage () ["ok", "missing", "bad"] (by decide)

/-! ## Lemmas about the audit scenario -/

/-- C4 counterexample: a fault in `ensureDirectoryExists` is raised after
the persistent context is launched but before the `try`/`finally` region
is entered, so the scenario ends with the fault propagated and the
context never closed. -/
theorem auditScenario_unclosed_counterexample :
    (auditScenario (ε := String) (α := Unit) (.error "mkdir failed") (.ok ())
        (fun _ => .ok ()) (.ok ())).result = .error "mkdir failed" ∧
    (auditScenario (ε := String) (α := Unit) (.error "mkdir failed") (.ok ())
        (fun _ => .ok ()) (.ok ())).contextClosed = false :=
  ⟨rfl, rfl⟩

/-- C4 amended: once the pre-`try` directory preparation succeeds, the
`finally` closure of the browser context runs on every exit path —
oracle success, oracle fault, or report-step fault — and an oracle fault
is still rethrown unchanged after the (never-raising) close. -/
theorem auditScenario_closes_after_prelude {ε α : Type} (ensureDir : Except ε Unit)
    (oracle : Except ε α) (save : α → Except ε Unit) (closeResult : Except ε Unit)
    (h : ensureDir = .ok ()) :
    (auditScenario ensureDir oracle save closeResult).contextClosed = true ∧
    ∀ e, oracle = .error e →
      (auditScenario ensureDir oracle save closeResult).result = .error e := by
  subst h
  constructor
  · cases oracle with
    | error e => rfl
    | ok a =>
      cases hs : save a with
      | error e => simp [auditScenario, hs]
      | ok u => simp [auditScenario, hs]
  · intro e he
    subst he
    simp [auditScenario, closeBrowserContextSafely_ok, Except.bind]

theorem auditScenario_closes_after_prelude_witness :
    (auditScenario (ε := String) (α := Unit) (.ok ()) (.error "oracle crashed")
        (fun _ => .ok ()) (.ok ())).contextClosed = true ∧
    (auditScenario (ε := String) (α := Unit) (.ok ()) (.error "oracle crashed")
        (fun _ => .ok ()) (.ok ())).result = .error "oracle crashed" := by
  have h := auditScenario_closes_after_prelude (ε := String) (α := Unit) (.ok ())
    (.error "oracle crashed") (fun _ => .ok ()) (.ok ()) rfl
  exact ⟨h.1, h.2 "oracle crashed" rfl⟩

/-! ## Lemmas about the API record validator -/

theorem validateApiDataAux_unknown (label : String) (hp : label ≠ "Posts")
    (hu : label ≠ "Users") (i : Nat) (data : List ApiRecord) :
    validateApiDataAux label i data = .ok [] := by
  induction data generalizing i with
  | nil => rfl
  | cons item rest ih =>
    simp [validateApiDataAux, checkItem, hp, hu, ih]

/-- C7: a record-type label other than `"Posts"` and `"Users"` runs no
check at all, so `validateApiData` returns an empty violation list for
every record collection. -/
theorem validateApiData_unknown_label (data : List ApiRecord) (label : String)
    (hp : label ≠ "Posts") (hu : label ≠ "Users") :
    validateApiData data label = .ok [] :=
  validateApiDataAux_unknown label hp hu 0 data

theorem validateApiData_unknown_label_witness :
    validateApiData [{ userId := .str "x", title := .null, body := .num 3 }] "Comments" =
      .ok [] :=
  validateApiData_unknown_label _ "Comments" (by decide) (by decide)

theorem checkItem_posts (i : Nat) (item : ApiRecord) :
    checkItem "Posts" i item = checkPosts i item := rfl

theorem checkItem_users (i : Nat) (item : ApiRecord) :
    checkItem "Users" i item = checkUsers i item := by
  unfold checkItem
  rw [if_neg (by decide), if_pos rfl]

theorem checkPosts_eq (i : Nat) (item : ApiRecord) (tB bB : Bool)
    (ht : trimFalsy item.title = .ok tB) (hb : trimFalsy item.body = .ok bB) :
    checkPosts i item =
      if (!isNumber item.userId || tB || bB) then
        .ok (some
          { index := i
            fields := [("userId", item.userId), ("title", item.title), ("body", item.body)]
            reason :=
              (if !isNumber item.userId then ["userId is not a number"] else []) ++
              (if tB then ["title is empty"] else []) ++
              (if bB then ["body is empty"] else []) })
      else .ok none := by
  simp [checkPosts, ht, hb]

theorem checkUsers_eq (i : Nat) (item : ApiRecord) (nB : Bool)
    (hn : trimFalsy item.name = .ok nB) :
    checkUsers i item =
      if nB then
        .ok (some { index := i, fields := [("userName", item.name)], reason := ["name is empty"] })
      else .ok none := by
  simp [checkUsers, hn]

theorem checkPosts_trims_ok (i : Nat) (item : ApiRecord) (o : Option InvalidEntry)
    (h : checkPosts i item = .ok o) :
    (∃ b, trimFalsy item.title = .ok b) ∧ ∃ b, trimFalsy item.body = .ok b := by
  rcases ht : trimFalsy item.title with eE | tB
  · simp [checkPosts, ht] at h
  rcases hb : trimFalsy item.body with eE | bB
  · simp [checkPosts, ht, hb] at h
  exact ⟨⟨tB, rfl⟩, ⟨bB, rfl⟩⟩

theorem checkUsers_trim_ok (i : Nat) (item : ApiRecord) (o : Option InvalidEntry)
    (h : checkUsers i item = .ok o) : ∃ b, trimFalsy item.name = .ok b := by
  rcases hn : trimFalsy item.name with eE | nB
  · simp [checkUsers, hn] at h
  · exact ⟨nB, rfl⟩

theorem checkPosts_shape (i : Nat) (item : ApiRecord) (e : InvalidEntry)
    (h : checkPosts i item = .ok (some e)) :
    e.index = i ∧
    e.fields = [("userId", item.userId), ("title", item.title), ("body", item.body)] ∧
    ∃ tB bB, trimFalsy item.title = .ok tB ∧ trimFalsy item.body = .ok bB ∧
      e.reason =
        (if !isNumber item.userId then ["userId is not a number"] else []) ++
        (if tB then ["title is empty"] else []) ++
        (if bB then ["body is empty"] else []) ∧
      (!isNumber item.userId || tB || bB) = true := by
  rcases ht : trimFalsy item.title with eE | tB
  · simp [checkPosts, ht] at h
  rcases hb : trimFalsy item.body with eE | bB
  · simp [checkPosts, ht, hb] at h
  rw [checkPosts_eq i item tB bB ht hb] at h
  by_cases hcond : (!isNumber item.userId || tB || bB) = true
  · rw [if_pos hcond] at h
    simp only [Except.ok.injEq, Option.some.injEq] at h
    subst h
    exact ⟨rfl, rfl, tB, bB, rfl, rfl, rfl, hcond⟩
  · rw [if_neg hcond] at h
    simp at h

theorem checkUsers_shape (i : Nat) (item : ApiRecord) (e : InvalidEntry)
    (h : checkUsers i item = .ok (some e)) :
    e.index = i ∧ e.fields = [("userName", item.name)] ∧ e.reason = ["name is empty"] ∧
    trimFalsy item.name = .ok true := by
  rcases hn : trimFalsy item.name with eE | nB
  · simp [checkUsers, hn] at h
  rw [checkUsers_eq i item nB hn] at h
  cases nB
  · simp at h
  · rw [if_pos rfl] at h
    simp only [Except.ok.injEq, Option.some.injEq] at h
    subst h
    exact ⟨rfl, rfl, rfl, rfl⟩

theorem checkItem_index (label : String) (i : Nat) (item : ApiRecord) (e : InvalidEntry)
    (h : checkItem label i item = .ok (some e)) : e.index = i := by
  unfold checkItem at h
  split at h
  · exact (checkPosts_shape i item e h).1
  · split at h
    · exact (checkUsers_shape i item e h).1
    · simp at h

theorem validateApiDataAux_cons_ok (label : String) (i : Nat) (item : ApiRecord)
    (rest : List ApiRecord) (l : List InvalidEntry)
    (h : validateApiDataAux label i (item :: rest) = .ok l) :
    ∃ o es, checkItem label i item = .ok o ∧
      validateApiDataAux label (i + 1) rest = .ok es ∧
      l = match o with | some x => x :: es | none => es := by
  simp only [validateApiDataAux] at h
  rcases hc : checkItem label i item with eE | o
  · rw [hc] at h
    simp at h
  rw [hc] at h
  rcases hr : validateApiDataAux label (i + 1) rest with eE | es
  · rw [hr] at h
    simp at h
  rw [hr] at h
  simp only [Except.ok.injEq] at h
  exact ⟨o, es, rfl, rfl, h.symm⟩

theorem validateApiDataAux_mem (label : String) (items : List ApiRecord) :
    ∀ (i : Nat) (l : List InvalidEntry), validateApiDataAux label i items = .ok l →
      ∀ e ∈ l, ∃ j, ∃ hj : j < items.length, e.index = i + j ∧
        checkItem label e.index (items.get ⟨j, hj⟩) = .ok (some e) := by
  induction items with
  | nil =>
    intro i l h e he
    simp [validateApiDataAux] at h
    subst h
    simp at he
  | cons item rest ih =>
    intro i l h e he
    obtain ⟨o, es, hc, hr, rfl⟩ := validateApiDataAux_cons_ok label i item rest l h
    cases o with
    | none =>
      obtain ⟨j, hj, hidx, hcheck⟩ := ih (i + 1) es hr e he
      exact ⟨j + 1, Nat.succ_lt_succ hj, by omega, hcheck⟩
    | some x =>
      rcases List.mem_cons.1 he with rfl | he2
      · have hx : e.index = i := checkItem_index label i item e hc
        refine ⟨0, by simp, by omega, ?_⟩
        rw [hx]
        exact hc
      · obtain ⟨j, hj, hidx, hcheck⟩ := ih (i + 1) es hr e he2
        exact ⟨j + 1, Nat.succ_lt_succ hj, by omega, hcheck⟩

theorem validateApiDataAux_sorted (label : String) (items : List ApiRecord) :
    ∀ (i : Nat) (l : List InvalidEntry), validateApiDataAux label i items = .ok l →
      List.Sorted (· < ·) (l.map (fun e => e.index)) := by
  induction items with
  | nil =>
    intro i l h
    simp [validateApiDataAux] at h
    subst h
    simp
  | cons item rest ih =>
    intro i l h
    obtain ⟨o, es, hc, hr, rfl⟩ := validateApiDataAux_cons_ok label i item rest l h
    cases o with
    | none => exact ih (i + 1) es hr
    | some x =>
      show List.Sorted (· < ·) ((x :: es).map (fun e => e.index))
      rw [List.map_cons, List.sorted_cons]
      refine ⟨?_, ih (i + 1) es hr⟩
      intro b hb
      rcases List.mem_map.1 hb with ⟨e, he, rfl⟩
      obtain ⟨j, hj, hidx, -⟩ := validateApiDataAux_mem label rest (i + 1) es hr e he
      have hx : x.index = i := checkItem_index label i item x hc
      omega

theorem validateApiDataAux_complete (label : String) (items : List ApiRecord) :
    ∀ (i : Nat) (l : List InvalidEntry), validateApiDataAux label i items = .ok l →
      ∀ (j : Nat) (hj : j < items.length) (e0 : InvalidEntry),
        checkItem label (i + j) (items.get ⟨j, hj⟩) = .ok (some e0) → e0 ∈ l := by
  induction items with
  | nil =>
    intro i l h j hj e0 hcheck
    exact absurd hj (by simp)
  | cons item rest ih =>
    intro i l h j hj e0 hcheck
    obtain ⟨o, es, hc, hr, rfl⟩ := validateApiDataAux_cons_ok label i item rest l h
    cases j with
    | zero =>
      have hcheck0 : checkItem label i item = .ok (some e0) := hcheck
      rw [hc] at hcheck0
      simp only [Except.ok.injEq] at hcheck0
      subst hcheck0
      exact List.mem_cons_self _ _
    | succ j1 =>
      have hj1 : j1 < rest.length := by
        simp only [List.length_cons] at hj
        omega
      have hcheck1 : checkItem label ((i + 1) + j1) (rest.get ⟨j1, hj1⟩) = .ok (some e0) := by
        have heq : i + (j1 + 1) = (i + 1) + j1 := by omega
        rw [← heq]
        exact hcheck
      have hmem := ih (i + 1) es hr j1 hj1 e0 hcheck1
      cases o with
      | none => exact hmem
      | some x => exact List.mem_cons_of_mem _ hmem

theorem validateApiDataAux_posts_trims (items : List ApiRecord) :
    ∀ (i : Nat) (l : List InvalidEntry), validateApiDataAux "Posts" i items = .ok l →
      ∀ item ∈ items,
        (∃ b, trimFalsy item.title = .ok b) ∧ ∃ b, trimFalsy item.body = .ok b := by
  induction items with
  | nil =>
    intro i l h item hmem
    simp at hmem
  | cons it rest ih =>
    intro i l h item hmem
    obtain ⟨o, es, hc, hr, -⟩ := validateApiDataAux_cons_ok "Posts" i it rest l h
    rcases List.mem_cons.1 hmem with rfl | hmem2
    · rw [checkItem_posts] at hc
      exact checkPosts_trims_ok i item o hc
    · exact ih (i + 1) es hr item hmem2

theorem validateApiDataAux_users_trims (items : List ApiRecord) :
    ∀ (i : Nat) (l : List InvalidEntry), validateApiDataAux "Users" i items = .ok l →
      ∀ item ∈ items, ∃ b, trimFalsy item.name = .ok b := by
  induction items with
  | nil =>
    intro i l h item hmem
    simp at hmem
  | cons it rest ih =>
    intro i l h item hmem
    obtain ⟨o, es, hc, hr, -⟩ := validateApiDataAux_cons_ok "Users" i it rest l h
    rcases List.mem_cons.1 hmem with rfl | hmem2
    · rw [checkItem_users] at hc
      exact checkUsers_trim_ok i item o hc
    · exact ih (i + 1) es hr item hmem2

theorem trimFalsy_ok_stringOrNullish (v : JsVal) (b : Bool) (h : trimFalsy v = .ok b) :
    isStringOrNullish v = true := by
  cases v <;> simp [trimFalsy, isStringOrNullish] at h ⊢

/-- C3: for a `"Posts"` record, the `reason` list contains the
human-readable description of exactly the violated sub-conditions
(non-numeric userId, blank title, blank body) and nothing for passing
ones; in particular `{userId: "x", title: "", body: "ok"}` yields exactly
`["userId is not a number", "title is empty"]`. -/
theorem validateApiData_posts_reason :
    (∀ (i : Nat) (item : ApiRecord) (e : InvalidEntry), checkPosts i item = .ok (some e) →
      (("userId is not a number" ∈ e.reason ↔ isNumber item.userId = false) ∧
       ("title is empty" ∈ e.reason ↔ trimFalsy item.title = .ok true) ∧
       ("body is empty" ∈ e.reason ↔ trimFalsy item.body = .ok true))) ∧
    validateApiData [{ userId := .str "x", title := .str "", body := .str "ok" }] "Posts" =
      .ok [{ index := 0
             fields := [("userId", .str "x"), ("title", .str ""), ("body", .str "ok")]
             reason := ["userId is not a number", "title is empty"] }] := by
  refine ⟨?_, by decide⟩
  intro i item e h
  obtain ⟨-, -, tB, bB, ht, hb, hreason, -⟩ := checkPosts_shape i item e h
  rw [hreason, ht, hb]
  cases hu : isNumber item.userId <;> cases tB <;> cases bB <;> simp [hu]

theorem validateApiData_posts_reason_witness :
    ("userId is not a number" ∈ ["userId is not a number", "title is empty"] ↔
      isNumber (JsVal.str "x") = false) ∧
    ("title is empty" ∈ ["userId is not a number", "title is empty"] ↔
      trimFalsy (JsVal.str "") = .ok true) ∧
    ("body is empty" ∈ ["userId is not a number", "title is empty"] ↔
      trimFalsy (JsVal.str "ok") = .ok true) :=
  validateApiData_posts_reason.1 0
    { userId := .str "x", title := .str "", body := .str "ok" }
    { index := 0
      fields := [("userId", .str "x"), ("title", .str ""), ("body", .str "ok")]
      reason := ["userId is not a number", "title is empty"] }
    (by decide)

/-- C6: the blank test used for the title/body/name checks (`!v?.trim()`)
classifies a value blank exactly when it is nullish or a string whose
trimmed form is empty; `"  "`, `""`, `null` and `undefined` are all
blank, and the Users check pushes nothing exactly when the name is
non-blank. -/
theorem blank_classification :
    (∀ (v : JsVal) (b : Bool), trimFalsy v = .ok b →
      (b = true ↔ (v = .null ∨ v = .undefined ∨ ∃ s, v = .str s ∧ jsTrim s = ""))) ∧
    (∀ (i : Nat) (item : ApiRecord),
      (checkUsers i item = .ok none ↔ trimFalsy item.name = .ok false)) ∧
    (trimFalsy (.str "  ") = .ok true ∧ trimFalsy (.str "") = .ok true ∧
     trimFalsy .null = .ok true ∧ trimFalsy .undefined = .ok true) := by
  refine ⟨?_, ?_, by decide⟩
  · intro v b h
    cases v with
    | null =>
      simp only [trimFalsy, Except.ok.injEq] at h
      subst h
      simp
    | undefined =>
      simp only [trimFalsy, Except.ok.injEq] at h
      subst h
      simp
    | str s =>
      simp only [trimFalsy, Except.ok.injEq] at h
      subst h
      simp [beq_iff_eq]
    | num n => simp [trimFalsy] at h
    | boolean bb => simp [trimFalsy] at h
  · intro i item
    rcases hn : trimFalsy item.name with eE | nB
    · simp [checkUsers, hn]
    · cases nB
      · simp [checkUsers, hn]
      · simp [checkUsers, hn]

theorem blank_classification_witness :
    (true = true ↔ (JsVal.str "  " = .null ∨ JsVal.str "  " = .undefined ∨
      ∃ s, JsVal.str "  " = .str s ∧ jsTrim s = "")) ∧
    (checkUsers 0 { name := JsVal.str "bob" } = .ok none ↔
      trimFalsy (JsVal.str "bob") = .ok false) :=
  ⟨blank_classification.1 (.str "  ") true (by decide),
   blank_classification.2.1 0 { name := .str "bob" }⟩

/-- C10: `validateApiData` returns normally only when every checked
string field (title and body for `"Posts"`, name for `"Users"`) is
nullish or a string; a record whose title is the number `5` makes the
call raise a `TypeError` instead of producing an entry. -/
theorem validateApiData_typeError_safety :
    (∀ (data : List ApiRecord) (l : List InvalidEntry), validateApiData data "Posts" = .ok l →
      ∀ item ∈ data, isStringOrNullish item.title = true ∧ isStringOrNullish item.body = true) ∧
    (∀ (data : List ApiRecord) (l : List InvalidEntry), validateApiData data "Users" = .ok l →
      ∀ item ∈ data, isStringOrNullish item.name = true) ∧
    validateApiData [{ userId := .num 1, title := .num 5, body := .str "ok" }] "Posts" =
      .error .typeError := by
  refine ⟨?_, ?_, by decide⟩
  · intro data l h item hmem
    obtain ⟨⟨tB, ht⟩, ⟨bB, hb⟩⟩ := validateApiDataAux_posts_trims data 0 l h item hmem
    exact ⟨trimFalsy_ok_stringOrNullish item.title tB ht,
           trimFalsy_ok_stringOrNullish item.body bB hb⟩
  · intro data l h item hmem
    obtain ⟨nB, hn⟩ := validateApiDataAux_users_trims data 0 l h item hmem
    exact trimFalsy_ok_stringOrNullish item.name nB hn

theorem validateApiData_typeError_safety_witness :
    isStringOrNullish (JsVal.str "t") = true ∧ isStringOrNullish (JsVal.str "b") = true :=
  validateApiData_typeError_safety.1
    [{ userId := .num 1, title := .str "t", body := .str "b" }] [] (by decide)
    { userId := .num 1, title := .str "t", body := .str "b" } (by decide)

/-- C5: `validateResources` preserves the relative input order (its
output is a sublist of the per-URL check results), and every entry of a
successful `validateApiData` run has strictly increasing `index` fields
where each `index` is the zero-based position of the offending record in
the source collection. -/
theorem validate_order_and_index :
    (∀ (σ : Type) (page : Page σ) (s : σ) (resources : List String),
      List.Sublist (validateResources page s resources) (resourceCheckResults page s resources)) ∧
    (∀ (data : List ApiRecord) (label : String) (l : List InvalidEntry),
      validateApiData data label = .ok l →
      List.Sorted (· < ·) (l.map (fun e => e.index)) ∧
      ∀ e ∈ l, ∃ hj : e.index < data.length,
        checkItem label e.index (data.get ⟨e.index, hj⟩) = .ok (some e)) := by
  constructor
  · intro σ page s resources
    rw [validateResources_eq_filter]
    exact List.filter_sublist _
  · intro data label l h
    refine ⟨validateApiDataAux_sorted label data 0 l h, ?_⟩
    intro e he
    obtain ⟨j, hj, hidx, hcheck⟩ := validateApiDataAux_mem label data 0 l h e he
    have hidx0 : e.index = j := by omega
    rw [hidx0] at hcheck ⊢
    exact ⟨hj, hcheck⟩

theorem validate_order_and_index_witness :
    List.Sublist (validateResources samplePage () ["ok", "missing"])
      (resourceCheckResults samplePage () ["ok", "missing"]) ∧
    (List.Sorted (· < ·)
      ([({ index := 1
           fields := [("userId", JsVal.str "x"), ("title", JsVal.str "t"), ("body", JsVal.str "b")]
           reason := ["userId is not a number"] } : InvalidEntry)].map (fun e => e.index)) ∧
     ∀ e ∈ [({ index := 1
               fields := [("userId", JsVal.str "x"), ("title", JsVal.str "t"), ("body", JsVal.str "b")]
               reason := ["userId is not a number"] } : InvalidEntry)],
       ∃ hj : e.index < ([{ userId := .num 1, title := .str "t", body := .str "b" },
                          { userId := .str "x", title := .str "t", body := .str "b" }] :
                          List ApiRecord).length,
         checkItem "Posts" e.index
           (([{ userId := .num 1, title := .str "t", body := .str "b" },
              { userId := .str "x", title := .str "t", body := .str "b" }] :
              List ApiRecord).get ⟨e.index, hj⟩) = .ok (some e)) :=
  ⟨validate_order_and_index.1 Unit samplePage () ["ok", "missing"],
   validate_order_and_index.2
     [{ userId := .num 1, title := .str "t", body := .str "b" },
      { userId := .str "x", title := .str "t", body := .str "b" }] "Posts"
     [{ index := 1
        fields := [("userId", JsVal.str "x"), ("title", JsVal.str "t"), ("body", JsVal.str "b")]
        reason := ["userId is not a number"] }] (by decide)⟩

/-- C8 counterexample: an InvalidEntry does not hold the offending fields
under their original field names only — a `"Users"` violation stores the
record's `name` value under the key `userName` (there is no `name` key),
and a `"Posts"` entry also carries the non-offending fields (here `title`
and `body` pass their checks yet appear in the entry). -/
theorem invalidEntry_field_names_counterexample :
    validateApiData [{ name := .str "" }] "Users" =
      .ok [{ index := 0, fields := [("userName", JsVal.str "")], reason := ["name is empty"] }] ∧
    List.lookup "name" [("userName", JsVal.str "")] = none ∧
    List.lookup "userName" [("userName", JsVal.str "")] = some (JsVal.str "") ∧
    validateApiData [{ userId := .str "x", title := .str "t", body := .str "b" }] "Posts" =
      .ok [{ index := 0
             fields := [("userId", JsVal.str "x"), ("title", JsVal.str "t"), ("body", JsVal.str "b")]
             reason := ["userId is not a number"] }] := by
  decide

/-- C8 amended: every InvalidEntry consists of the record's zero-based
index, the values of all label-checked fields — `userId`, `title`, `body`
under their original names for `"Posts"`, the `name` value under the key
`userName` for `"Users"` — and the ordered reason list; and a successful
run produces exactly one entry (identified by its index) per record that
fails at least one rule. -/
theorem invalidEntry_shape :
    (∀ (i : Nat) (item : ApiRecord) (e : InvalidEntry), checkPosts i item = .ok (some e) →
      e.index = i ∧
      e.fields = [("userId", item.userId), ("title", item.title), ("body", item.body)]) ∧
    (∀ (i : Nat) (item : ApiRecord) (e : InvalidEntry), checkUsers i item = .ok (some e) →
      e.index = i ∧ e.fields = [("userName", item.name)]) ∧
    (∀ (data : List ApiRecord) (label : String) (l : List InvalidEntry),
      validateApiData data label = .ok l →
      (l.map (fun e => e.index)).Nodup ∧
      ∀ (j : Nat) (hj : j < data.length),
        ((∃ e0, checkItem label j (data.get ⟨j, hj⟩) = .ok (some e0)) ↔
          ∃ e ∈ l, e.index = j)) := by
  refine ⟨?_, ?_, ?_⟩
  · intro i item e h
    obtain ⟨h1, h2, -⟩ := checkPosts_shape i item e h
    exact ⟨h1, h2⟩
  · intro i item e h
    obtain ⟨h1, h2, -⟩ := checkUsers_shape i item e h
    exact ⟨h1, h2⟩
  · intro data label l h
    constructor
    · have hs := validateApiDataAux_sorted label data 0 l h
      exact List.Pairwise.imp (fun hab => Nat.ne_of_lt hab) hs
    · intro j hj
      constructor
      · rintro ⟨e0, hcheck⟩
        have hcheck0 : checkItem label (0 + j) (data.get ⟨j, hj⟩) = .ok (some e0) := by
          rw [Nat.zero_add]
          exact hcheck
        exact ⟨e0, validateApiDataAux_complete label data 0 l h j hj e0 hcheck0,
               checkItem_index label j (data.get ⟨j, hj⟩) e0 hcheck⟩
      · rintro ⟨e, hmem, hidx⟩
        obtain ⟨j1, hj1, hidx1, hcheck⟩ := validateApiDataAux_mem label data 0 l h e hmem
        have hjj : j1 = j := by omega
        subst hjj
        rw [hidx] at hcheck
        exact ⟨e, hcheck⟩

theorem invalidEntry_shape_witness :
    (({ index := 0
        fields := [("userId", JsVal.str "x"), ("title", JsVal.str "t"), ("body", JsVal.str "b")]
        reason := ["userId is not a number"] } : InvalidEntry).index = 0 ∧
     ({ index := 0
        fields := [("userId", JsVal.str "x"), ("title", JsVal.str "t"), ("body", JsVal.str "b")]
        reason := ["userId is not a number"] } : InvalidEntry).fields =
       [("userId", JsVal.str "x"), ("title", JsVal.str "t"), ("body", JsVal.str "b")]) ∧
    (([({ index := 0, fields := [("userName", JsVal.str "")], reason := ["name is empty"] } :
        InvalidEntry)].map (fun e => e.index)).Nodup ∧
     ∀ (j : Nat) (hj : j < ([{ name := JsVal.str "" }] : List ApiRecord).length),
       ((∃ e0, checkItem "Users" j (([{ name := JsVal.str "" }] : List ApiRecord).get ⟨j, hj⟩) =
           .ok (some e0)) ↔
         ∃ e ∈ [({ index := 0, fields := [("userName", JsVal.str "")],
                   reason := ["name is empty"] } : InvalidEntry)], e.index = j)) :=
  ⟨invalidEntry_shape.1 0 { userId := .str "x", title := .str "t", body := .str "b" }
     { index := 0
       fields := [("userId", JsVal.str "x"), ("title", JsVal.str "t"), ("body", JsVal.str "b")]
       reason := ["userId is not a number"] } (by decide),
   invalidEntry_shape.2.2 [{ name := .str "" }] "Users"
     [{ index := 0, fields := [("userName", JsVal.str "")], reason := ["name is empty"] }]
     (by decide)⟩
